import Mathlib

/-!
A shallow embedding of the `tcv_screenshots` pipeline
(`tcv_screenshots/__init__.py`, `tcv_screenshots/render.py`) and proofs about
it.

Modelling conventions:
* Python runtime values that flow through the pipeline are modelled by the
  unityped `PyObj` (models are opaque `vmodel` handles; decimal float literals
  of the code are stored exactly as centi-units, no float arithmetic occurs).
* I/O effects (printing, file writes, the browser) are not modelled as such:
  printed status lines become `Event`s, written screenshots become the
  `images` list, and the external geometry exporter and the browser's
  per-document behaviour are oracle parameters (`exportFn`, `failAt`,
  `viewerOk`), since they are external collaborators that may fail
  arbitrarily.
* Exceptions are modelled by `Option`/`Bool` outcomes at exactly the places
  the source has `try`/`except` boundaries.
-/

namespace TcvScreenshots

/-- A Python runtime value as it flows through this program. -/
inductive PyObj where
  | vnone
  | vint (n : Int)
  | vstr (s : String)
  | vbool (b : Bool)
  /-- a decimal float literal, stored exactly as hundredths -/
  | vfloat (centi : Int)
  | vtuple (elems : List PyObj)
  | vlist (elems : List PyObj)
  | vdict (entries : List (String × PyObj))
  /-- an opaque CAD model handle produced by the external modelling engine -/
  | vmodel (id : Nat)

/-- The `(model, name, config)` triples handled by the collector and the
normalization step.  Names and configs are arbitrary Python values because the
code never validates them. -/
abbrev Triple := PyObj × PyObj × PyObj

/-- Python truthiness, as used by `config or {}`. -/
def pyTruthy : PyObj → Bool
  | .vnone => false
  | .vint n => n != 0
  | .vstr s => s != ""
  | .vbool b => b
  | .vfloat c => c != 0
  | .vtuple es => !es.isEmpty
  | .vlist es => !es.isEmpty
  | .vdict es => !es.isEmpty
  | .vmodel _ => true

/-- `x or {}` for a config argument: falsy values are replaced by `{}`. -/
def orEmptyDict (c : PyObj) : PyObj :=
  if pyTruthy c then c else .vdict []

/-- Setting one key of a Python dict: an existing key is updated in place,
a new key is appended.  This is the per-key step of `{**a, **b}`. -/
def dictInsert (d : List (String × PyObj)) (k : String) (v : PyObj) :
    List (String × PyObj) :=
  match d with
  | [] => [(k, v)]
  | (k', v') :: rest =>
    if k' == k then (k, v) :: rest else (k', v') :: dictInsert rest k v

/-- `{**a, **b}`: a fresh dict holding `a`'s entries overridden key-wise by
`b`'s entries; neither argument is mutated. -/
def pyDictMerge (a b : List (String × PyObj)) : List (String × PyObj) :=
  b.foldl (fun acc kv => dictInsert acc kv.1 kv.2) a

/-- `DEFAULT_CONFIG` from `render.py`. -/
def DEFAULT_CONFIG : List (String × PyObj) :=
  [ ("cadWidth", .vint 1200),
    ("height", .vint 800),
    ("treeWidth", .vint 0),
    ("theme", .vstr "light"),
    ("glass", .vbool true),
    ("tools", .vbool false),
    ("ambientIntensity", .vfloat 100),
    ("directIntensity", .vfloat 110),
    ("metalness", .vfloat 30),
    ("roughness", .vfloat 65),
    ("edgeColor", .vint 7368816),
    ("ortho", .vbool true),
    ("control", .vstr "trackball"),
    ("up", .vstr "Z") ]

/-- `config = {**DEFAULT_CONFIG, **(example_config or {})}`.  `none` models
the `TypeError` raised when a truthy non-mapping is unpacked with `**`. -/
def mergeConfig (c : PyObj) : Option (List (String × PyObj)) :=
  match orEmptyDict c with
  | .vdict es => some (pyDictMerge DEFAULT_CONFIG es)
  | _ => none

/-- Folding any number of merges against the shared defaults, threading the
defaults object through so that its (non-)mutation is part of the state. -/
def mergeRun (os : List (List (String × PyObj))) :
    List (String × PyObj) × List (List (String × PyObj)) :=
  os.foldl (fun st o => (st.1, st.2 ++ [pyDictMerge st.1 o])) (DEFAULT_CONFIG, [])

/-! ## The model collector (`tcv_screenshots/__init__.py`)

The process-wide `_saved_models` list is modelled as explicit state of type
`List Triple`. -/

/-- The stored form of a `save_model(model, name, config)` call:
`_saved_models.append((model, name, config or {}))`. -/
def storedTriple (t : Triple) : Triple :=
  (t.1, t.2.1, orEmptyDict t.2.2)

/-- `save_model`: append `(model, name, config or {})` to the collector. -/
def save_model (st : List Triple) (model name config : PyObj) : List Triple :=
  st ++ [(model, name, orEmptyDict config)]

/-- `get_saved_models` (drain): return a copy of the collector and reset the
live collector to empty. -/
def get_saved_models (st : List Triple) : List Triple × List Triple :=
  (st, [])

/-- `clear_saved_models`: reset the collector to empty. -/
def clear_saved_models (_st : List Triple) : List Triple := []

/-- One collector operation, as issued by a script or the orchestrator. -/
inductive CollectorOp where
  | save (model name config : PyObj)
  | drain
  | clear

/-- One collector operation applied to the state; `drain` also yields its
returned sequence. -/
def collectorStep (st : List Triple) :
    CollectorOp → List Triple × Option (List Triple)
  | .save m n c => (save_model st m n c, none)
  | .drain =>
    let (out, st') := get_saved_models st
    (st', some out)
  | .clear => (clear_saved_models st, none)

/-- Run a sequence of collector operations, returning the final state and the
list of sequences returned by the `drain` calls, in order. -/
def execCollector (st : List Triple) :
    List CollectorOp → List Triple × List (List Triple)
  | [] => (st, [])
  | op :: rest =>
    let (st', out) := collectorStep st op
    let (stf, outs) := execCollector st' rest
    (stf, match out with | some o => o :: outs | none => outs)

/-! ## File-name handling and discovery -/

/-- Does the file name start with an underscore (`f.name.startswith("_")`)? -/
def startsUnderscore (n : String) : Bool :=
  match n.data with
  | [] => false
  | c :: _ => c == '_'

/-- Does the file name match the glob pattern `*.py`?  (`*` also matches the
empty string, so this is exactly a suffix test.) -/
def matchesPyGlob (n : String) : Bool :=
  List.isSuffixOf ".py".data n.data

/-- Index of the last `'.'` in a character list, if any. -/
def lastDotIdx (cs : List Char) : Option Nat :=
  ((List.range cs.length).filter (fun i => cs.getD i ' ' == '.')).getLast?

/-- `pathlib.PurePath.stem` on a bare file name: the name with its suffix
removed, where a suffix starts at the last dot provided that dot is neither
the first nor the last character. -/
def pathStem (n : String) : String :=
  let cs := n.data
  match lastDotIdx cs with
  | some i => if 0 < i ∧ i < cs.length - 1 then ⟨cs.take i⟩ else n
  | none => n

/-- Example discovery for a directory input:
`sorted(f for f in examples.glob("*.py") if not f.name.startswith("_"))`.
The directory listing is a list of file names in arbitrary order. -/
def discoverExamples (files : List String) : List String :=
  List.insertionSort (· ≤ ·)
    (files.filter (fun n => matchesPyGlob n && !startsUnderscore n))

/-! ## One example script (`process_examples` body) -/

/-- The behaviour of one example script, in the shapes this program
exercises: module-level `save_model` calls and a possible exception during
`exec_module`; presence of `main()`; `save_model` calls and a possible
exception during `main()`; and `main`'s return value, which is either the
result of `get_saved_models()` (drain) or a fixed value. -/
structure ScriptBehavior where
  filename : String
  execSaves : List Triple
  execRaises : Bool
  hasMain : Bool
  mainSaves : List Triple
  mainRaises : Bool
  mainReturnsDrain : Bool
  mainValue : PyObj

/-- `example_path.stem`, the script's model name. -/
def scriptStem (s : ScriptBehavior) : String := pathStem s.filename

/-- Apply a list of `save_model` calls to the collector state. -/
def applySaves (st : List Triple) (calls : List Triple) : List Triple :=
  calls.foldl (fun a t => save_model a t.1 t.2.1 t.2.2) st

/-- The Python list value produced by returning `get_saved_models()`. -/
def collectorToPy (st : List Triple) : PyObj :=
  .vlist (st.map (fun t => .vtuple [t.1, t.2.1, t.2.2]))

/-- `isinstance(item, tuple) and len(item) == 3`. -/
def asTriple : PyObj → Option Triple
  | .vtuple [a, b, c] => some (a, b, c)
  | _ => none

/-- Normalization of `main()`'s return value into `models_to_process`
(render.py lines 116-134), together with the number of dropped list items
(each printed as an `invalid list item format` warning).  The branch order is
the source's: list first, then 2-tuple, then any other non-`None` value as a
single model, and `None` giving no models. -/
def normalizeResult (stem : String) (r : PyObj) : List Triple × Nat :=
  match r with
  | .vlist items =>
    (items.filterMap asTriple, (items.filter (fun i => (asTriple i).isNone)).length)
  | .vtuple [a, b] => ([(a, .vstr stem, b)], 0)
  | .vnone => ([], 0)
  | other => ([(other, .vstr stem, .vdict [])], 0)

/-- Modelled from the spec sentence amended for C2: `None` gives no models; a
list is used verbatim with every non-triple element dropped and counted; a
2-tuple is a (model, overrides) pair named by the stem; and every other
(non-`None`) value — whatever its shape — is one single model named by the
stem with empty overrides. -/
def normalizeAmendedSpec (stem : String) (r : PyObj) : List Triple × Nat :=
  match r with
  | .vnone => ([], 0)
  | .vlist items =>
    (items.filterMap asTriple, (items.filter (fun i => (asTriple i).isNone)).length)
  | .vtuple [a, b] => ([(a, .vstr stem, b)], 0)
  | other => ([(other, .vstr stem, .vdict [])], 0)

/-- The per-model export loop of one script (render.py lines 141-158): merge
the config, serialize via the external exporter `exportFn` (`none` models a
thrown exception), and append `(output_name, {"model": ..., "config": ...})`.
The first failure abandons the rest of this script's models; the returned
flag records whether a failure occurred. -/
def processModels (exportFn : PyObj → Option PyObj) :
    List Triple → List (PyObj × PyObj) × Bool
  | [] => ([], false)
  | (cad, name, cfg) :: rest =>
    match mergeConfig cfg with
    | none => ([], true)
    | some merged =>
      match exportFn cad with
      | none => ([], true)
      | some tree =>
        let doc := PyObj.vdict [("model", tree), ("config", .vdict merged)]
        let (more, failed) := processModels exportFn rest
        ((name, doc) :: more, failed)

/-- The document a well-behaved export produces for one triple. -/
def exportDoc (exportFn : PyObj → Option PyObj) (t : Triple) : PyObj × PyObj :=
  (t.2.1, .vdict [("model", (exportFn t.1).getD .vnone),
                  ("config", .vdict ((mergeConfig t.2.2).getD []))])

/-- A status line printed for one script by `process_examples`. -/
inductive Event where
  /-- `FAILURE {model_name}: ...` — an exception caught at the script
  boundary (load, `main()`, merge or export). -/
  | scriptFailure (stem : String)
  /-- one of the `SKIP {model_name}: ...` informational lines -/
  | scriptSkip (stem : String)
  /-- `SKIP {model_name}: invalid list item format` for one dropped item -/
  | invalidItem (stem : String)
deriving DecidableEq

/-- What processing one script produced: the collector state it leaves
behind, its exported documents, its status events, and the collector state it
observed when its module code began executing. -/
structure ScriptRun where
  collector : List Triple
  docs : List (PyObj × PyObj)
  events : List Event
  observed : List Triple

/-- The value `main()` returns (drain result or fixed value), computed from
the script's behaviour; the collector is empty when the script starts. -/
def scriptResultPy (s : ScriptBehavior) : PyObj :=
  if s.mainReturnsDrain then
    collectorToPy (applySaves (applySaves [] s.execSaves) s.mainSaves)
  else s.mainValue

/-- The `models_to_process` list one script reaches the export loop with
(empty when the script raises, is skipped, or normalizes to nothing). -/
def scriptTodo (s : ScriptBehavior) : List Triple :=
  (normalizeResult (scriptStem s) (scriptResultPy s)).1

/-- The per-script body of `process_examples` (render.py lines 89-162):
clear the collector, load and execute the module (module-level `save_model`
calls land in the collector; an exception is caught at the script boundary),
skip when `main` is absent, call `main()`, normalize its result, and run the
export loop.  `σprev` is the collector state left by the previous script. -/
def runScript (exportFn : PyObj → Option PyObj) (σprev : List Triple)
    (s : ScriptBehavior) : ScriptRun :=
  let σ0 := clear_saved_models σprev
  let stem := scriptStem s
  let σ1 := applySaves σ0 s.execSaves
  if s.execRaises then ⟨σ1, [], [.scriptFailure stem], σ0⟩
  else if !s.hasMain then ⟨σ1, [], [.scriptSkip stem], σ0⟩
  else
    let σ2 := applySaves σ1 s.mainSaves
    if s.mainRaises then ⟨σ2, [], [.scriptFailure stem], σ0⟩
    else
      let σ3 := if s.mainReturnsDrain then [] else σ2
      let nd := normalizeResult stem
        (if s.mainReturnsDrain then collectorToPy σ2 else s.mainValue)
      let warns := List.replicate nd.2 (Event.invalidItem stem)
      if nd.1.isEmpty then ⟨σ3, [], warns ++ [.scriptSkip stem], σ0⟩
      else
        let pm := processModels exportFn nd.1
        ⟨σ3, pm.1, warns ++ (if pm.2 then [.scriptFailure stem] else []), σ0⟩

/-- The aggregate result of `process_examples`: all exported documents in
order, all status events, the final collector state, and — for the isolation
invariant — the collector state each script observed as it started. -/
structure ProcResult where
  processed : List (PyObj × PyObj)
  events : List Event
  collector : List Triple
  observed : List (List Triple)

/-- The script loop of `process_examples`, threading the collector state. -/
def processExamplesAux (exportFn : PyObj → Option PyObj) (σ : List Triple) :
    List ScriptBehavior → ProcResult
  | [] => ⟨[], [], σ, []⟩
  | s :: rest =>
    let r := runScript exportFn σ s
    let c := processExamplesAux exportFn r.collector rest
    ⟨r.docs ++ c.processed, r.events ++ c.events, c.collector, r.observed :: c.observed⟩

/-- `process_examples` on an explicit list of scripts; the process-wide
collector starts empty. -/
def process_examples (exportFn : PyObj → Option PyObj)
    (scripts : List ScriptBehavior) : ProcResult :=
  processExamplesAux exportFn [] scripts

/-! ## The screenshot renderer (`render_models_to_screenshots`) -/

/-- The steps of the per-document protocol at which an exception can arise. -/
inductive RenderStage where
  | viewport
  | load
  | waitReady
  | capture
  | persist
deriving DecidableEq

/-- What the per-document loop accumulated. -/
structure RenderPhase where
  attempts : List PyObj
  successes : List PyObj
  failures : List PyObj
  images : List PyObj

/-- The per-document loop (render.py lines 248-311).  `failAt i` says at
which step (if any) document `i`'s protocol raises; every exception is caught
at the per-document boundary, recorded against the document's name, and the
loop proceeds.  On success the decoded image is written as `<name>.png`. -/
def renderLoop (failAt : Nat → Option RenderStage) :
    Nat → List (PyObj × PyObj) → RenderPhase
  | _, [] => ⟨[], [], [], []⟩
  | i, (name, _data) :: rest =>
    let r := renderLoop failAt (i + 1) rest
    match failAt i with
    | some _ => ⟨name :: r.attempts, r.successes, name :: r.failures, r.images⟩
    | none => ⟨name :: r.attempts, name :: r.successes, r.failures, name :: r.images⟩

/-- The observable outcome of `render_models_to_screenshots`: which documents
were attempted / succeeded / failed, which images were written, how often the
browser was closed, and the returned failure count. -/
structure RenderResult where
  attempts : List PyObj
  successes : List PyObj
  failures : List PyObj
  images : List PyObj
  browserCloses : Nat
  failCount : Nat

/-- `render_models_to_screenshots` (render.py lines 166-316).  With no models
it returns 0 before touching the browser.  `viewerOk` is the outcome of the
bounded wait for the viewer's readiness predicate; when it never becomes
true, the browser is closed once and the function returns 1 without any
per-document attempt.  Otherwise the loop runs over all documents and the
browser is closed once afterwards; the return value is the failure count. -/
def render_models_to_screenshots (models : List (PyObj × PyObj))
    (viewerOk : Bool) (failAt : Nat → Option RenderStage) : RenderResult :=
  if models.isEmpty then ⟨[], [], [], [], 0, 0⟩
  else if !viewerOk then ⟨[], [], [], [], 1, 1⟩
  else
    let ph := renderLoop failAt 0 models
    ⟨ph.attempts, ph.successes, ph.failures, ph.images, 1, ph.failures.length⟩

/-- `run` (render.py lines 319-347), reduced to the process exit status it
produces: 0 when there are no models to render, else `sys.exit(1)` exactly
when the renderer's failure count is positive. -/
def run (exportFn : PyObj → Option PyObj) (scripts : List ScriptBehavior)
    (viewerOk : Bool) (failAt : Nat → Option RenderStage) : Nat :=
  let models := (process_examples exportFn scripts).processed
  if models.isEmpty then 0
  else if (render_models_to_screenshots models viewerOk failAt).failCount > 0
  then 1 else 0

/-! ## The `sys.path` bracket around `exec_module` (render.py lines 101-106) -/

/-- `sys.path.insert(0, dir)`, then `exec_module` — which may rewrite
`sys.path` and may raise (the `Bool`) — then, in a `finally`, `sys.path.pop(0)`.
The skip decision and the script-boundary handler both run after the
`finally`, so success, skip and exception all pass through the same
restoration. -/
def execModuleWithPath (prior : List String) (dir : String)
    (execModule : List String → List String × Bool) : List String × Bool :=
  let (after, raised) := execModule (dir :: prior)
  (after.tail, raised)

/-! ## Concrete fixtures used by counterexamples and witnesses -/

/-- An exporter that accepts every handle (serialization never throws). -/
def exportAll : PyObj → Option PyObj := fun m => some m

/-- A script whose module-level code raises (its load fails). -/
def badLoadScript : ScriptBehavior :=
  ⟨"bad.py", [], true, true, [], false, false, .vnone⟩

/-- A script whose `main` returns one bare model handle. -/
def goodScript : ScriptBehavior :=
  ⟨"good.py", [], false, true, [], false, false, .vmodel 1⟩

/-- A script whose `main` returns a bare 3-tuple — one of the "other shape"
return values C2 says must be treated as an error. -/
def tripleReturnScript : ScriptBehavior :=
  ⟨"weird.py", [], false, true, [], false, false,
    .vtuple [.vmodel 0, .vstr "nm", .vdict []]⟩

/-- The collector operation issued by one `save_model` call. -/
def mkSave (t : Triple) : CollectorOp := .save t.1 t.2.1 t.2.2

/-- Captured-model triples used in concrete scenarios. -/
def trip10 : Triple := (.vmodel 10, .vstr "m1", .vdict [])

def trip11 : Triple := (.vmodel 11, .vstr "m2", .vdict [])

def trip12 : Triple := (.vmodel 12, .vstr "m3", .vdict [])

/-- An exporter whose serialization throws exactly on model handle 11. -/
def exportFail11 : PyObj → Option PyObj :=
  fun m => match m with
  | .vmodel 11 => none
  | x => some x

/-- A script whose `main` returns a list of three captured-model triples. -/
def multiScript : ScriptBehavior :=
  ⟨"multi.py", [], false, true, [], false, false,
    .vlist [.vtuple [.vmodel 10, .vstr "m1", .vdict []],
            .vtuple [.vmodel 11, .vstr "m2", .vdict []],
            .vtuple [.vmodel 12, .vstr "m3", .vdict []]]⟩

/-- Three queued documents for the renderer. -/
def models3 : List (PyObj × PyObj) :=
  [(.vstr "a", .vnone), (.vstr "b", .vnone), (.vstr "c", .vnone)]

/-- A per-document fault oracle making exactly document 1 (the second) fail
at the viewport-resize step. -/
def failAtSecond : Nat → Option RenderStage :=
  fun i => if i == 1 then some .viewport else none

/-! ## Lemmas -/

theorem applySaves_eq (calls : List Triple) (st : List Triple) :
    applySaves st calls = st ++ calls.map storedTriple := by
  induction calls generalizing st with
  | nil => simp [applySaves]
  | cons t ts ih =>
    show applySaves (st ++ [storedTriple t]) ts = _
    rw [ih]
    simp

theorem execCollector_saves (saves : List Triple) (st : List Triple)
    (rest : List CollectorOp) :
    execCollector st (saves.map mkSave ++ rest)
      = execCollector (st ++ saves.map storedTriple) rest := by
  induction saves generalizing st with
  | nil => simp
  | cons t ts ih =>
    show (let r := execCollector (save_model st t.1 t.2.1 t.2.2) (ts.map mkSave ++ rest);
          ((r.1, r.2) : List Triple × List (List Triple))) = _
    rw [show save_model st t.1 t.2.1 t.2.2 = st ++ [storedTriple t] from rfl]
    simp only [ih]
    simp [List.append_assoc]

theorem lookup_dictInsert_self (d : List (String × PyObj)) (k : String) (v : PyObj) :
    (dictInsert d k v).lookup k = some v := by
  induction d with
  | nil => simp [dictInsert, List.lookup]
  | cons kv rest ih =>
    obtain ⟨k', v'⟩ := kv
    by_cases h : k' = k
    · subst h; simp [dictInsert, List.lookup]
    · have h1 : (k' == k) = false := beq_eq_false_iff_ne.mpr h
      have h2 : (k == k') = false := beq_eq_false_iff_ne.mpr (Ne.symm h)
      simp [dictInsert, List.lookup, h1, h2, ih]

theorem lookup_dictInsert_ne (d : List (String × PyObj)) (k : String) (v : PyObj)
    (k' : String) (h : k' ≠ k) :
    (dictInsert d k v).lookup k' = d.lookup k' := by
  induction d with
  | nil =>
    have h1 : (k' == k) = false := beq_eq_false_iff_ne.mpr h
    simp [dictInsert, List.lookup, h1]
  | cons kv rest ih =>
    obtain ⟨k0, v0⟩ := kv
    by_cases h0 : k0 = k
    · subst h0
      have h1 : (k' == k0) = false := beq_eq_false_iff_ne.mpr h
      simp [dictInsert, List.lookup, h1]
    · have h1 : (k0 == k) = false := beq_eq_false_iff_ne.mpr h0
      by_cases h2 : k' = k0
      · subst h2
        simp [dictInsert, List.lookup, h1]
      · have h3 : (k' == k0) = false := beq_eq_false_iff_ne.mpr h2
        simp [dictInsert, List.lookup, h1, h3, ih]

theorem lookup_none_of_not_mem_keys (l : List (String × PyObj)) (k : String)
    (h : k ∉ l.map Prod.fst) : l.lookup k = none := by
  rw [List.lookup_eq_none_iff]
  intro p hp
  rw [bne_iff_ne]
  intro hk
  exact h (List.mem_map.mpr ⟨p, hp, hk.symm⟩)

theorem lookup_merge_absent (b a : List (String × PyObj)) (k : String)
    (h : b.lookup k = none) : (pyDictMerge a b).lookup k = a.lookup k := by
  induction b generalizing a with
  | nil => rfl
  | cons kv rest ih =>
    obtain ⟨k0, v0⟩ := kv
    have hk : (k == k0) = false := by
      cases hkk : (k == k0) with
      | false => rfl
      | true => simp [List.lookup, hkk] at h
    have hrest : rest.lookup k = none := by
      simpa [List.lookup, hk] using h
    show (pyDictMerge (dictInsert a k0 v0) rest).lookup k = _
    rw [ih _ hrest, lookup_dictInsert_ne]
    exact fun hke => by simp [hke] at hk

theorem lookup_merge_present :
    ∀ (b a : List (String × PyObj)) (k : String) (v : PyObj),
      (b.map Prod.fst).Nodup → b.lookup k = some v →
      (pyDictMerge a b).lookup k = some v := by
  intro b
  induction b with
  | nil => intro a k v _ h; simp [List.lookup] at h
  | cons kv rest ih =>
    intro a k v hnd h
    obtain ⟨k0, v0⟩ := kv
    simp only [List.map_cons, List.nodup_cons] at hnd
    cases hkk : (k == k0) with
    | true =>
      have hk : k = k0 := by simpa using hkk
      have hv : v0 = v := by simpa [List.lookup, hkk] using h
      have hrest : rest.lookup k = none := by
        apply lookup_none_of_not_mem_keys
        rw [hk]
        exact hnd.1
      show (pyDictMerge (dictInsert a k0 v0) rest).lookup k = some v
      rw [lookup_merge_absent _ _ _ hrest, hk, lookup_dictInsert_self, hv]
    | false =>
      have hrest : rest.lookup k = some v := by simpa [List.lookup, hkk] using h
      exact ih (dictInsert a k0 v0) k v hnd.2 hrest

theorem mergeRun_fst (os : List (List (String × PyObj)))
    (d : List (String × PyObj)) (acc : List (List (String × PyObj))) :
    (os.foldl (fun st o => (st.1, st.2 ++ [pyDictMerge st.1 o])) (d, acc)).1 = d := by
  induction os generalizing acc with
  | nil => rfl
  | cons o os ih => exact ih _

theorem runScript_observed (e : PyObj → Option PyObj) (σ : List Triple)
    (s : ScriptBehavior) : (runScript e σ s).observed = [] := by
  unfold runScript
  dsimp only
  repeat' split
  all_goals rfl

/-! ## Claim theorems -/

/-- C4: when the viewer's readiness predicate never becomes true within its
timeout (a queued, nonempty document list notwithstanding), the render phase
makes no per-document attempt, captures zero images, closes the browser
exactly once, and returns failure count 1. -/
theorem claim4_viewer_timeout_fatal (models : List (PyObj × PyObj))
    (failAt : Nat → Option RenderStage) (h : models ≠ []) :
    (render_models_to_screenshots models false failAt).attempts = []
    ∧ (render_models_to_screenshots models false failAt).images = []
    ∧ (render_models_to_screenshots models false failAt).browserCloses = 1
    ∧ (render_models_to_screenshots models false failAt).failCount = 1 := by
  obtain ⟨m, ms, rfl⟩ := List.exists_cons_of_ne_nil h
  exact ⟨rfl, rfl, rfl, rfl⟩

theorem claim4_witness :
    (render_models_to_screenshots [(.vstr "m", .vnone)] false (fun _ => none)).attempts = []
    ∧ (render_models_to_screenshots [(.vstr "m", .vnone)] false (fun _ => none)).images = []
    ∧ (render_models_to_screenshots [(.vstr "m", .vnone)] false (fun _ => none)).browserCloses = 1
    ∧ (render_models_to_screenshots [(.vstr "m", .vnone)] false (fun _ => none)).failCount = 1 :=
  claim4_viewer_timeout_fatal [(.vstr "m", .vnone)] (fun _ => none)
    (List.cons_ne_nil _ _)

theorem renderLoop_spec (failAt : Nat → Option RenderStage) :
    ∀ (l : List (PyObj × PyObj)) (i : Nat),
      (renderLoop failAt i l).attempts = l.map Prod.fst
      ∧ (renderLoop failAt i l).failures
          = ((List.enumFrom i l).filter (fun p => (failAt p.1).isSome)).map (fun p => p.2.1)
      ∧ (renderLoop failAt i l).images
          = ((List.enumFrom i l).filter (fun p => (failAt p.1).isNone)).map (fun p => p.2.1) := by
  intro l
  induction l with
  | nil => intro i; exact ⟨rfl, rfl, rfl⟩
  | cons x xs ih =>
    intro i
    obtain ⟨name, data⟩ := x
    obtain ⟨ha, hf, hi⟩ := ih (i + 1)
    cases hfa : failAt i with
    | some st => simp [renderLoop, hfa, List.enumFrom, ha, hf, hi]
    | none => simp [renderLoop, hfa, List.enumFrom, ha, hf, hi]

/-- C5: with the viewer initialized, every document is attempted in order,
each failing document is recorded against its name at the per-document
boundary, the browser session is closed only once at the end, and the
returned failure count is exactly the number of failing documents. -/
theorem claim5_per_document_isolation (models : List (PyObj × PyObj))
    (failAt : Nat → Option RenderStage) (h : models ≠ []) :
    (render_models_to_screenshots models true failAt).attempts = models.map Prod.fst
    ∧ (render_models_to_screenshots models true failAt).failures
        = ((models.enum).filter (fun p => (failAt p.1).isSome)).map (fun p => p.2.1)
    ∧ (render_models_to_screenshots models true failAt).failCount
        = (((models.enum).filter (fun p => (failAt p.1).isSome)).map (fun p => p.2.1)).length
    ∧ (render_models_to_screenshots models true failAt).browserCloses = 1 := by
  obtain ⟨m, ms, rfl⟩ := List.exists_cons_of_ne_nil h
  obtain ⟨ha, hf, hi⟩ := renderLoop_spec failAt (m :: ms) 0
  refine ⟨?_, ?_, ?_, rfl⟩
  · simpa [render_models_to_screenshots] using ha
  · simpa [render_models_to_screenshots, List.enum] using hf
  · show (renderLoop failAt 0 (m :: ms)).failures.length = _
    rw [hf]
    rfl

theorem claim5_witness :
    (render_models_to_screenshots models3 true failAtSecond).attempts = models3.map Prod.fst
    ∧ (render_models_to_screenshots models3 true failAtSecond).failures
        = ((models3.enum).filter (fun p => (failAtSecond p.1).isSome)).map (fun p => p.2.1)
    ∧ (render_models_to_screenshots models3 true failAtSecond).failCount
        = (((models3.enum).filter (fun p => (failAtSecond p.1).isSome)).map (fun p => p.2.1)).length
    ∧ (render_models_to_screenshots models3 true failAtSecond).browserCloses = 1 :=
  claim5_per_document_isolation models3 failAtSecond (by simp [models3])

/-- C6: a drain returns exactly the triples saved (in their stored
`(model, name, config or {})` form) since the last `clear`/`drain`, in call
order; it resets the live collector to empty, so an immediately following
drain returns the empty sequence.  Both restart points (`clear` and a prior
`drain`) are covered, from an arbitrary leftover state. -/
theorem claim6_collector_drain (σ : List Triple) (saves : List Triple) :
    execCollector σ (.clear :: (saves.map mkSave ++ [.drain, .drain]))
        = ([], [saves.map storedTriple, []])
    ∧ execCollector σ (.drain :: (saves.map mkSave ++ [.drain, .drain]))
        = ([], [σ, saves.map storedTriple, []]) := by
  constructor
  · show (let r := execCollector ([] : List Triple) (saves.map mkSave ++ [.drain, .drain]);
          ((r.1, r.2) : List Triple × List (List Triple))) = _
    rw [show execCollector ([] : List Triple) (saves.map mkSave ++ [.drain, .drain])
          = execCollector ([] ++ saves.map storedTriple) [.drain, .drain]
        from execCollector_saves saves [] _]
    simp [execCollector, collectorStep, get_saved_models]
  · show (let r := execCollector ([] : List Triple) (saves.map mkSave ++ [.drain, .drain]);
          ((r.1, σ :: r.2) : List Triple × List (List Triple))) = _
    rw [show execCollector ([] : List Triple) (saves.map mkSave ++ [.drain, .drain])
          = execCollector ([] ++ saves.map storedTriple) [.drain, .drain]
        from execCollector_saves saves [] _]
    simp [execCollector, collectorStep, get_saved_models]

/-- C7: the merged configuration takes the override's value on every key the
overrides define and the default's value on every other key, and the shared
defaults object is unchanged after any number of merges.  (Overrides come
from a Python dict, whose keys are necessarily distinct.) -/
theorem claim7_config_merge (overrides : List (String × PyObj)) (k : String)
    (v : PyObj) (os : List (List (String × PyObj)))
    (hnd : (overrides.map Prod.fst).Nodup) :
    (overrides.lookup k = some v →
      (pyDictMerge DEFAULT_CONFIG overrides).lookup k = some v)
    ∧ (overrides.lookup k = none →
      (pyDictMerge DEFAULT_CONFIG overrides).lookup k = DEFAULT_CONFIG.lookup k)
    ∧ (mergeRun os).1 = DEFAULT_CONFIG :=
  ⟨fun h => lookup_merge_present overrides DEFAULT_CONFIG k v hnd h,
   fun h => lookup_merge_absent overrides DEFAULT_CONFIG k h,
   mergeRun_fst os DEFAULT_CONFIG []⟩

theorem claim7_witness :
    (pyDictMerge DEFAULT_CONFIG [("cadWidth", PyObj.vint 500)]).lookup "height"
      = DEFAULT_CONFIG.lookup "height"
    ∧ (mergeRun [[("cadWidth", PyObj.vint 500)]]).1 = DEFAULT_CONFIG :=
  ⟨(claim7_config_merge [("cadWidth", PyObj.vint 500)] "height" PyObj.vnone
      [[("cadWidth", PyObj.vint 500)]] (by simp)).2.1 rfl,
   (claim7_config_merge [("cadWidth", PyObj.vint 500)] "height" PyObj.vnone
      [[("cadWidth", PyObj.vint 500)]] (by simp)).2.2⟩

/-- C8: the collector is emptied immediately before each script executes —
every script in the batch observes an empty collector when its module code
starts, whatever any earlier script saved and never drained, and whatever
leftover state `σ` the run began with. -/
theorem claim8_collector_cleared (e : PyObj → Option PyObj) (σ : List Triple)
    (scripts : List ScriptBehavior) :
    (processExamplesAux e σ scripts).observed
      = List.replicate scripts.length [] := by
  induction scripts generalizing σ with
  | nil => rfl
  | cons s ss ih =>
    simp [processExamplesAux, runScript_observed, ih, List.replicate_succ]

/-- C9: the module-resolution search path is extended with the script's own
directory only while `exec_module` runs, and — because the removal sits in a
`finally` — the prior path is restored on every exit path (success, the
subsequent skip, or an exception), provided the script itself does not
mutate the search path. -/
theorem claim9_sys_path_restored (prior : List String) (dir : String)
    (execModule : List String → List String × Bool)
    (h : ∀ p, (execModule p).1 = p) :
    (execModuleWithPath prior dir execModule).1 = prior := by
  simp [execModuleWithPath, h]

theorem claim9_witness :
    (execModuleWithPath ["a", "b"] "d" (fun p => (p, true))).1 = ["a", "b"] :=
  claim9_sys_path_restored ["a", "b"] "d" (fun p => (p, true)) (fun _ => rfl)

/-- C10: for a directory input, discovery selects exactly the `*.py` files
whose names do not begin with an underscore, the resulting order is sorted
(hence deterministic), and consequently an underscore-prefixed script such as
`__init__.py` is never selected. -/
theorem claim10_discovery (files : List String) (n : String) :
    (n ∈ discoverExamples files
      ↔ n ∈ files ∧ matchesPyGlob n = true ∧ startsUnderscore n = false)
    ∧ (discoverExamples files).Sorted (· ≤ ·)
    ∧ (startsUnderscore n = true → n ∉ discoverExamples files) := by
  have hmem : n ∈ discoverExamples files
      ↔ n ∈ files ∧ matchesPyGlob n = true ∧ startsUnderscore n = false := by
    simp [discoverExamples, List.mem_insertionSort, List.mem_filter,
      Bool.and_eq_true, Bool.not_eq_true']
  refine ⟨hmem, List.sorted_insertionSort _ _, fun hu hmem' => ?_⟩
  have hfalse := (hmem.mp hmem').2.2
  rw [hu] at hfalse
  exact Bool.noConfusion hfalse

theorem claim10_witness :
    "__init__.py" ∉ discoverExamples ["box.py", "__init__.py"] :=
  (claim10_discovery ["box.py", "__init__.py"] "__init__.py").2.2 (by decide)

theorem procAux_indep (e : PyObj → Option PyObj) :
    ∀ (scripts : List ScriptBehavior) (σ σ' : List Triple),
      (processExamplesAux e σ scripts).processed
          = (processExamplesAux e σ' scripts).processed
      ∧ (processExamplesAux e σ scripts).events
          = (processExamplesAux e σ' scripts).events
  | [], _, _ => ⟨rfl, rfl⟩
  | _ :: _, _, _ => ⟨rfl, rfl⟩

theorem processModels_prefix (e : PyObj → Option PyObj) :
    ∀ (done : List Triple) (bad : Triple) (rest : List Triple),
      (∀ t ∈ done, (mergeConfig t.2.2).isSome ∧ (e t.1).isSome) →
      (mergeConfig bad.2.2).isSome → e bad.1 = none →
      processModels e (done ++ bad :: rest) = (done.map (exportDoc e), true) := by
  intro done
  induction done with
  | nil =>
    intro bad rest _ hbm hbe
    obtain ⟨cad, name, cfg⟩ := bad
    obtain ⟨merged, hm⟩ := Option.isSome_iff_exists.mp hbm
    simp only [List.nil_append, List.map_nil]
    simp [processModels, hm, hbe]
  | cons t ts ih =>
    intro bad rest hdone hbm hbe
    have hts : ∀ x ∈ ts, (mergeConfig x.2.2).isSome ∧ (e x.1).isSome :=
      fun x hx => hdone x (List.mem_cons_of_mem _ hx)
    obtain ⟨hm, he⟩ := hdone t (List.mem_cons_self t ts)
    obtain ⟨cad, name, cfg⟩ := t
    obtain ⟨merged, hmm⟩ := Option.isSome_iff_exists.mp hm
    obtain ⟨tree, hee⟩ := Option.isSome_iff_exists.mp he
    simp only [List.cons_append, List.map_cons]
    simp [processModels, hmm, hee, ih bad rest hts hbm hbe, exportDoc]

theorem runScript_normal (e : PyObj → Option PyObj) (σ : List Triple)
    (s : ScriptBehavior) (h1 : s.execRaises = false) (h2 : s.hasMain = true)
    (h3 : s.mainRaises = false) (h4 : scriptTodo s ≠ []) :
    (runScript e σ s).docs = (processModels e (scriptTodo s)).1
    ∧ (runScript e σ s).events
        = List.replicate (normalizeResult (scriptStem s) (scriptResultPy s)).2
            (Event.invalidItem (scriptStem s))
          ++ (if (processModels e (scriptTodo s)).2
              then [Event.scriptFailure (scriptStem s)] else []) := by
  have hne : (scriptTodo s).isEmpty = false := by
    cases hs : scriptTodo s with
    | nil => exact absurd hs h4
    | cons a l => rfl
  obtain ⟨fn, es, er, hmb, ms, mr, md, mv⟩ := s
  dsimp only at h1 h2 h3
  subst h1; subst h2; subst h3
  simp only [runScript, scriptTodo, scriptResultPy, scriptStem, clear_saved_models,
    Bool.not_true, Bool.false_eq_true, if_false] at hne ⊢
  simp [hne]

/-! ## Claim theorems for C1-C3 -/

/-- C1 (amended): the process exit status is non-zero exactly when the render
phase's returned failure count is positive (a failed viewer initialization
counting as one failure); load and export failures recorded while processing
the scripts do not, by themselves, make the exit status non-zero. -/
theorem claim1_amended_exit_status (e : PyObj → Option PyObj)
    (scripts : List ScriptBehavior) (viewerOk : Bool)
    (failAt : Nat → Option RenderStage) :
    run e scripts viewerOk failAt ≠ 0
      ↔ 0 < (render_models_to_screenshots
              (process_examples e scripts).processed viewerOk failAt).failCount := by
  unfold run
  cases hm : (process_examples e scripts).processed with
  | nil => simp [render_models_to_screenshots]
  | cons d ds =>
    by_cases hf : 0 < (render_models_to_screenshots (d :: ds) viewerOk failAt).failCount
    · simp [hf]
    · simp [hf]

/-- C1 counterexample: a run in which one script fails to load (`FAILURE bad`
is recorded, so the combined count of load, export and render failures is
positive) while the surviving model renders cleanly — yet the process exit
status is 0, contradicting the claim that any failure at any stage makes the
exit status non-zero. -/
theorem claim1_counterexample :
    Event.scriptFailure "bad"
        ∈ (process_examples exportAll [badLoadScript, goodScript]).events
    ∧ run exportAll [badLoadScript, goodScript] true (fun _ => none) = 0 := by
  exact ⟨by decide, rfl⟩

/-- C2 (amended): normalization sends `None` to zero models, a list to its
well-formed triples verbatim (each non-triple element dropped and counted as
one warning), a 2-tuple to one (model, overrides) pair named by the file
stem — and every other non-`None` value, whatever its shape, to one single
model named by the file stem with empty overrides; no return shape is
rejected as an error by normalization itself. -/
theorem claim2_normalization_amended (stem : String) (r : PyObj) :
    normalizeResult stem r = normalizeAmendedSpec stem r := by
  cases r with
  | vtuple es =>
    rcases es with _ | ⟨a, _ | ⟨b, _ | ⟨c, rest⟩⟩⟩ <;> rfl
  | vnone => rfl
  | vint n => rfl
  | vstr s => rfl
  | vbool b => rfl
  | vfloat c => rfl
  | vlist es => rfl
  | vdict es => rfl
  | vmodel i => rfl

/-- C2 counterexample: a script whose `main` returns a bare 3-tuple — a shape
outside the four accepted ones — is not treated as an error: the run records
no failure event and silently accepts the tuple as a single model named by
the file stem, exporting it into the processed set. -/
theorem claim2_counterexample :
    (process_examples exportAll [tripleReturnScript]).events = []
    ∧ (process_examples exportAll [tripleReturnScript]).processed
        = [(PyObj.vstr "weird",
            PyObj.vdict
              [("model", PyObj.vtuple [.vmodel 0, .vstr "nm", .vdict []]),
               ("config", PyObj.vdict DEFAULT_CONFIG)])] :=
  ⟨rfl, rfl⟩

/-- C3: when serialization throws on one captured model of a script, that
model and the remaining models of the same script are abandoned while the
models of that script already exported are kept, a failure is recorded
against the script, and processing continues with the scripts that follow. -/
theorem claim3_export_failure_isolation (e : PyObj → Option PyObj)
    (σ : List Triple) (s : ScriptBehavior) (ss : List ScriptBehavior)
    (done : List Triple) (bad : Triple) (rest : List Triple)
    (h1 : s.execRaises = false) (h2 : s.hasMain = true) (h3 : s.mainRaises = false)
    (htodo : scriptTodo s = done ++ bad :: rest)
    (hdone : ∀ t ∈ done, (mergeConfig t.2.2).isSome ∧ (e t.1).isSome)
    (hbm : (mergeConfig bad.2.2).isSome) (hbe : e bad.1 = none) :
    (processExamplesAux e σ (s :: ss)).processed
        = done.map (exportDoc e) ++ (process_examples e ss).processed
    ∧ Event.scriptFailure (scriptStem s)
        ∈ (processExamplesAux e σ (s :: ss)).events := by
  have hpm : processModels e (scriptTodo s) = (done.map (exportDoc e), true) := by
    rw [htodo]
    exact processModels_prefix e done bad rest hdone hbm hbe
  have h4 : scriptTodo s ≠ [] := by
    rw [htodo]
    simp
  obtain ⟨hdocs, hevents⟩ := runScript_normal e σ s h1 h2 h3 h4
  constructor
  · show (runScript e σ s).docs
        ++ (processExamplesAux e (runScript e σ s).collector ss).processed = _
    rw [hdocs, hpm, (procAux_indep e ss (runScript e σ s).collector []).1]
    rfl
  · show Event.scriptFailure (scriptStem s)
        ∈ (runScript e σ s).events
          ++ (processExamplesAux e (runScript e σ s).collector ss).events
    apply List.mem_append_left
    rw [hevents, hpm]
    simp

theorem claim3_witness :
    (processExamplesAux exportFail11 [] [multiScript, goodScript]).processed
        = [trip10].map (exportDoc exportFail11)
          ++ (process_examples exportFail11 [goodScript]).processed
    ∧ Event.scriptFailure (scriptStem multiScript)
        ∈ (processExamplesAux exportFail11 [] [multiScript, goodScript]).events :=
  claim3_export_failure_isolation exportFail11 [] multiScript [goodScript]
    [trip10] trip11 [trip12] rfl rfl rfl rfl
    (by
      intro t ht
      rw [List.mem_singleton] at ht
      subst ht
      exact ⟨rfl, rfl⟩)
    rfl rfl

end TcvScreenshots
